import Mathlib

/-
Verification development for the Departly.ai Streamlit application
(src/App.py).  The Python code is shallowly embedded: timestamps are
integers counting seconds, Python strings are `String`/`List Char`,
Python dicts are association lists, and the Streamlit session state is
an explicit record threaded through the button handlers.
-/

/- ### Departure-time calculation (src/App.py lines 286-289)

`total_buffer_sec = traffic['sec'] + (45 * 60) + (30 * 60)`
`leave_dt = takeoff_dt - timedelta(seconds=total_buffer_sec)`

Timestamps are modelled as integer seconds.  The display format
`strftime('%I:%M %p')` depends only on the time of day, so formatting
reduces the timestamp modulo 86400 seconds. -/

def totalBufferSec (trafficSec : Nat) : Nat :=
  trafficSec + 45 * 60 + 30 * 60

def leaveBy (takeoff : Int) (trafficSec : Nat) : Int :=
  takeoff - (totalBufferSec trafficSec : Int)

/-- Zero-padded two-digit rendering of a number, as strftime does. -/
def pad2 (n : Int) : String :=
  if n < 10 then "0" ++ toString n else toString n

/-- Embedding of `strftime('%I:%M %p')`: 12-hour clock with AM/PM. -/
def fmt12 (t : Int) : String :=
  let sod := t % 86400
  let h24 := sod / 3600
  let m := sod % 3600 / 60
  let h12 := if h24 % 12 = 0 then (12 : Int) else h24 % 12
  let ampm := if h24 < 12 then "AM" else "PM"
  pad2 h12 ++ ":" ++ pad2 m ++ " " ++ ampm

/- ### Private-key newline repair (src/App.py line 26)

`key_dict["private_key"] = key_dict["private_key"].replace("\\n", "\n")`

Python's `str.replace` scans left to right and replaces non-overlapping
occurrences; for the two-character pattern backslash-n this is the
following recursion on the character list. -/

def pyReplaceBsn : List Char → List Char
  | [] => []
  | [c] => [c]
  | a :: b :: rest =>
    if a = '\\' ∧ b = 'n' then '\n' :: pyReplaceBsn rest
    else a :: pyReplaceBsn (b :: rest)

/-- Whether the list contains the two-character sequence backslash-n. -/
def hasBsn : List Char → Bool
  | a :: b :: rest => if a = '\\' ∧ b = 'n' then true else hasBsn (b :: rest)
  | _ => false

theorem pyReplaceBsn_pos (rest : List Char) :
    pyReplaceBsn ('\\' :: 'n' :: rest) = '\n' :: pyReplaceBsn rest := by
  simp [pyReplaceBsn]

theorem pyReplaceBsn_neg (a b : Char) (rest : List Char)
    (h : ¬(a = '\\' ∧ b = 'n')) :
    pyReplaceBsn (a :: b :: rest) = a :: pyReplaceBsn (b :: rest) := by
  simp only [pyReplaceBsn]
  rw [if_neg h]

theorem pyReplaceBsn_cons_ne (c : Char) (l : List Char) (h : c ≠ '\\') :
    pyReplaceBsn (c :: l) = c :: pyReplaceBsn l := by
  cases l with
  | nil => rfl
  | cons x xs => exact pyReplaceBsn_neg c x xs (fun hh => h hh.1)

theorem pyReplaceBsn_head (b : Char) (l : List Char) :
    ∃ c t, pyReplaceBsn (b :: l) = c :: t ∧ (c = b ∨ c = '\n') := by
  cases l with
  | nil => exact ⟨b, [], rfl, Or.inl rfl⟩
  | cons x xs =>
    by_cases h : b = '\\' ∧ x = 'n'
    · obtain ⟨h1, h2⟩ := h
      subst h1; subst h2
      exact ⟨'\n', pyReplaceBsn xs, pyReplaceBsn_pos xs, Or.inr rfl⟩
    · exact ⟨b, pyReplaceBsn (x :: xs), pyReplaceBsn_neg b x xs h, Or.inl rfl⟩

theorem pyReplaceBsn_idem_aux :
    ∀ (n : Nat) (x : List Char), x.length ≤ n →
      pyReplaceBsn (pyReplaceBsn x) = pyReplaceBsn x := by
  intro n
  induction n with
  | zero =>
    intro x hx
    have hnil : x = [] := List.eq_nil_of_length_eq_zero (Nat.le_zero.mp hx)
    subst hnil; rfl
  | succ n ih =>
    intro x hx
    rcases x with _ | ⟨a, _ | ⟨b, rest⟩⟩
    · rfl
    · rfl
    · have hlen : (b :: rest).length ≤ n := by
        simp only [List.length_cons] at hx ⊢; omega
      have hlen2 : rest.length ≤ n := by
        simp only [List.length_cons] at hx ⊢; omega
      by_cases h : a = '\\' ∧ b = 'n'
      · obtain ⟨h1, h2⟩ := h
        subst h1; subst h2
        rw [pyReplaceBsn_pos, pyReplaceBsn_cons_ne '\n' _ (by decide),
          ih rest hlen2]
      · rw [pyReplaceBsn_neg a b rest h]
        by_cases ha : a = '\\'
        · subst ha
          have hb : b ≠ 'n' := fun hb => h ⟨rfl, hb⟩
          obtain ⟨c, t, hct, hc⟩ := pyReplaceBsn_head b rest
          have hcn : c ≠ 'n' := by
            rcases hc with h1 | h1
            · rw [h1]; exact hb
            · rw [h1]; decide
          rw [hct, pyReplaceBsn_neg '\\' c t (fun hh => hcn hh.2), ← hct,
            ih (b :: rest) hlen]
        · rw [pyReplaceBsn_cons_ne a _ ha, ih (b :: rest) hlen]

theorem repBsn_idem (x : List Char) :
    pyReplaceBsn (pyReplaceBsn x) = pyReplaceBsn x :=
  pyReplaceBsn_idem_aux x.length x le_rfl

theorem repBsn_fixed :
    ∀ (x : List Char), hasBsn x = false → pyReplaceBsn x = x := by
  intro x
  induction x with
  | nil => intro _; rfl
  | cons a tail ih =>
    intro hf
    rcases tail with _ | ⟨b, rest⟩
    · rfl
    · by_cases h : a = '\\' ∧ b = 'n'
      · exfalso
        simp only [hasBsn, if_pos h] at hf
        exact absurd hf (by decide)
      · have hf2 : hasBsn (b :: rest) = false := by
          simp only [hasBsn, if_neg h] at hf
          exact hf
        rw [pyReplaceBsn_neg a b rest h, ih hf2]

/- ### Credential repair over the parsed dict (src/App.py lines 25-26) -/

theorem string_data_mk (l : List Char) : (String.mk l).data = l := rfl

/-- Repair of one dict entry: the private-key value gets the newline
replacement, other entries are untouched. -/
def repairEntry (kv : String × String) : String × String :=
  if kv.1 = "private_key" then (kv.1, String.mk (pyReplaceBsn kv.2.data))
  else kv

def repairKey (kd : List (String × String)) : List (String × String) :=
  kd.map repairEntry

theorem repairEntry_idem (kv : String × String) :
    repairEntry (repairEntry kv) = repairEntry kv := by
  by_cases h : kv.1 = "private_key"
  · simp only [repairEntry, if_pos h, string_data_mk, repBsn_idem]
  · simp only [repairEntry, if_neg h]

theorem repairKey_idem (kd : List (String × String)) :
    repairKey (repairKey kd) = repairKey kd := by
  induction kd with
  | nil => rfl
  | cons kv rest ih =>
    simp only [repairKey, List.map_cons] at ih ⊢
    rw [repairEntry_idem, ih]

/-- C3: the private-key newline repair (replacing every two-character
escape sequence backslash-n with an actual line break) is idempotent,
keys without the escape sequence are unaffected, and consequently the
dict-level repair is idempotent as well. -/
theorem private_key_repair_idem :
    (∀ x : List Char, pyReplaceBsn (pyReplaceBsn x) = pyReplaceBsn x)
    ∧ (∀ x : List Char, hasBsn x = false → pyReplaceBsn x = x)
    ∧ (∀ kd : List (String × String), repairKey (repairKey kd) = repairKey kd) :=
  ⟨repBsn_idem, repBsn_fixed, repairKey_idem⟩

/-- C3 witness: concrete instances of the idempotence and of the
no-escape fixed point. -/
theorem private_key_repair_idem_witness :
    pyReplaceBsn (pyReplaceBsn ("a\\nb").data) = pyReplaceBsn ("a\\nb").data
    ∧ pyReplaceBsn ("ab\ncd").data = ("ab\ncd").data :=
  ⟨private_key_repair_idem.1 _, private_key_repair_idem.2.1 _ (by decide)⟩

/- ### Claims about the departure-time calculation -/

/-- C1 counterexample: at takeoff 14:00 (modelled as seconds of day)
and traffic 1800 s, the code computes 12:15 PM, not 11:00; the code has
no 105-minute security/queue buffer, only 45 min + 30 min. -/
theorem leaveBy_scenarioA_counterexample :
    leaveBy (14 * 3600) 1800 ≠ 11 * 3600
    ∧ fmt12 (leaveBy (14 * 3600) 1800) ≠ "11:00 AM" := by
  constructor
  · decide
  · decide

/-- C1 (amended): for takeoff 2025-01-10 14:00 and traffic 1800 s the
code subtracts traffic plus its fixed 45-minute gate-close lead and
30-minute security buffer (total buffer 6300 s) and returns a leave-by
time of 12:15 PM. -/
theorem leaveBy_scenarioA :
    totalBufferSec 1800 = 6300
    ∧ leaveBy (14 * 3600) 1800 = 12 * 3600 + 15 * 60
    ∧ fmt12 (leaveBy (14 * 3600) 1800) = "12:15 PM" := by
  refine ⟨rfl, by decide, by decide⟩

/-- C2: for a fixed takeoff timestamp, the computed leave-by time is
strictly decreasing in the traffic duration: t1 < t2 implies the
leave-by time for t2 is strictly earlier than the one for t1. -/
theorem leaveBy_strict_mono (takeoff : Int) (t1 t2 : Nat) (h : t1 < t2) :
    leaveBy takeoff t2 < leaveBy takeoff t1 := by
  unfold leaveBy totalBufferSec
  omega

/-- C2 witness: concrete instance at takeoff 50400 s with traffic
1800 s versus 1900 s. -/
theorem leaveBy_strict_mono_witness :
    leaveBy 50400 1900 < leaveBy 50400 1800 :=
  leaveBy_strict_mono 50400 1800 1900 (by decide)

/- ### City resolution (src/App.py lines 115-230)

The CITY_VARIANTS dict, transcribed entry by entry, and the
targets/display assignment performed by `get_flight_data`: if the
destination code is a key of the table, targets is the mapped list and
display its first element; otherwise the single-element list around
`arr_city` (defaulting to "Unknown City") is used. -/

def cityVariants : List (String × List String) := [
  ("DEL", ["Delhi", "New Delhi", "Noida", "Gurugram", "Greater Noida", "Meerut", "Mathura", "Vrindavan", "Aligarh", "Faridabad"]),
  ("AGR", ["Agra", "Fatehpur Sikri", "Mathura", "Vrindavan", "Bharatpur"]),
  ("LKO", ["Lucknow", "Ayodhya", "Kanpur", "Naimisharanya"]),
  ("VNS", ["Varanasi", "Sarnath", "Mirzapur", "Prayagraj"]),
  ("IXD", ["Allahabad", "Prayagraj", "Chitrakoot", "Kaushambi"]),
  ("ATQ", ["Amritsar", "Dalhousie", "Pathankot", "Gurdaspur"]),
  ("IXC", ["Chandigarh", "Shimla", "Kasauli", "Solan", "Chail", "Parwanoo"]),
  ("DED", ["Dehradun", "Mussoorie", "Rishikesh", "Haridwar", "Dhanaulti", "Kanatal", "Tehri"]),
  ("PGH", ["Pantnagar", "Nainital", "Jim Corbett", "Ranikhet", "Almora", "Bhimtal", "Mukteshwar"]),
  ("KUU", ["Kullu", "Manali", "Manikaran", "Kasol", "Shoja", "Jibhi", "Tirthan Valley", "Spiti Valley", "Keylong"]),
  ("DHM", ["Dharamshala", "McLeod Ganj", "Palampur", "Bir Billing", "Kangra", "Barot"]),
  ("SLV", ["Shimla", "Kufri", "Narkanda", "Chail"]),
  ("SXR", ["Srinagar", "Gulmarg", "Pahalgam", "Sonamarg", "Anantnag", "Baramulla"]),
  ("IXL", ["Leh", "Nubra Valley", "Pangong Tso", "Kargil", "Diskit", "Hemis", "Dras", "Turtuk"]),
  ("IXJ", ["Jammu", "Katra", "Vaishno Devi", "Udhampur", "Patnitop", "Kishtwar"]),
  ("BOM", ["Mumbai", "Lonavala", "Alibaug", "Matheran", "Khandala", "Elephanta Caves", "Igatpuri"]),
  ("PNQ", ["Pune", "Lonavala", "Mahabaleshwar", "Lavasa", "Panchgani", "Satara", "Matheran"]),
  ("NAG", ["Nagpur", "Pench", "Tadoba"]),
  ("IXU", ["Aurangabad", "Ajanta", "Ellora", "Shirdi"]),
  ("ISK", ["Nashik", "Shirdi", "Trimbakeshwar", "Igatpuri"]),
  ("SAG", ["Shirdi", "Shani Shingnapur"]),
  ("KLH", ["Kolhapur", "Panhala"]),
  ("AMD", ["Ahmedabad", "Gandhinagar", "Kevadia", "Statue of Unity", "Modhera", "Patan", "Mount Abu"]),
  ("STV", ["Surat", "Daman", "Silvassa"]),
  ("BDQ", ["Vadodara", "Kevadia", "Champaner"]),
  ("RAJ", ["Rajkot"]),
  ("JGA", ["Jamnagar", "Dwarka"]),
  ("PBD", ["Porbandar", "Dwarka", "Somnath"]),
  ("DIU", ["Diu", "Somnath", "Gir National Park"]),
  ("BHJ", ["Bhuj", "Rann of Kutch", "Dholavira"]),
  ("GOI", ["Goa", "Panjim", "Calangute", "Anjuna", "Dudhsagar", "Madgaon"]),
  ("GOX", ["Goa", "North Goa", "Mopa"]),
  ("JAI", ["Jaipur", "Pushkar", "Ajmer", "Ranthambore", "Sawai Madhopur", "Alwar", "Bhangarh"]),
  ("UDR", ["Udaipur", "Chittorgarh", "Kumbhalgarh", "Mount Abu", "Nathdwara"]),
  ("JDH", ["Jodhpur", "Osian", "Khimsar"]),
  ("JSA", ["Jaisalmer", "Sam Sand Dunes", "Tanot"]),
  ("BKB", ["Bikaner", "Deshnoke"]),
  ("BLR", ["Bengaluru", "Bangalore", "Mysore", "Coorg", "Chikmagalur", "Nandi Hills", "Hassan", "Belur", "Halebidu", "Lepakshi"]),
  ("IXE", ["Mangalore", "Udupi", "Gokarna", "Murudeshwar", "Bekal", "Coorg", "Dharmasthala"]),
  ("MYQ", ["Mysore", "Bandipur", "Kabini", "Nagarhole", "Srirangapatna"]),
  ("HBX", ["Hubli", "Hampi", "Badami", "Pattadakal", "Aihole", "Bijapur", "Dandeli"]),
  ("MAA", ["Chennai", "Mahabalipuram", "Kanchipuram", "Puducherry", "Auroville", "Tirupati", "Vellore"]),
  ("CJB", ["Coimbatore", "Ooty", "Coonoor", "Isha Yoga Center", "Pollachi"]),
  ("IXM", ["Madurai", "Rameswaram", "Kodaikanal", "Karaikudi", "Thanjavur"]),
  ("TRZ", ["Trichy", "Thanjavur", "Velankanni", "Chidambaram", "Kumbakonam"]),
  ("TCR", ["Tuticorin", "Tirunelveli", "Kanyakumari"]),
  ("HYD", ["Hyderabad", "Secunderabad", "Warangal", "Srisailam", "Bidar"]),
  ("COK", ["Kochi", "Munnar", "Alappuzha", "Thekkady", "Kumarakom", "Thrissur", "Guruvayur"]),
  ("TRV", ["Thiruvananthapuram", "Kovalam", "Varkala", "Kanyakumari", "Poovar"]),
  ("CCJ", ["Kozhikode", "Wayanad", "Vythiri", "Kannur"]),
  ("CNN", ["Kannur", "Bekal", "Coorg"]),
  ("VTZ", ["Visakhapatnam", "Araku Valley", "Vizianagaram"]),
  ("VGA", ["Vijayawada", "Amaravati", "Guntur"]),
  ("TIR", ["Tirupati", "Srikalahasti", "Puttaparthi"]),
  ("CDP", ["Kadapa", "Gandikota"]),
  ("KJB", ["Kurnool", "Mantralayam"]),
  ("CCU", ["Kolkata", "Sundarbans", "Digha", "Mandarmani", "Bolpur", "Shantiniketan", "Murshidabad", "Mayapur", "Hooghly"]),
  ("IXB", ["Bagdogra", "Darjeeling", "Gangtok", "Pelling", "Kalimpong", "Siliguri", "Namchi", "Ravangla", "Lachung"]),
  ("GAU", ["Guwahati", "Shillong", "Kaziranga", "Cherrapunji", "Dawki", "Manas", "Hajo", "Kamakhya"]),
  ("JRH", ["Jorhat", "Majuli", "Sivasagar", "Kaziranga"]),
  ("IXA", ["Agartala", "Unakoti", "Dumboor"]),
  ("IXS", ["Silchar"]),
  ("IMF", ["Imphal"]),
  ("DMU", ["Dimapur", "Kohima", "Dzukou Valley"]),
  ("BBI", ["Bhubaneswar", "Puri", "Konark", "Chilika", "Cuttack", "Udayagiri"]),
  ("JRG", ["Jharsuguda", "Sambalpur", "Rourkela"]),
  ("PAT", ["Patna", "Bodh Gaya", "Nalanda", "Rajgir", "Vaishali"]),
  ("IXR", ["Ranchi", "Deoghar", "Netarhat"]),
  ("DGR", ["Deoghar", "Baidyanath Dham"]),
  ("BHO", ["Bhopal", "Sanchi", "Bhimbetka", "Pachmarhi"]),
  ("IDR", ["Indore", "Ujjain", "Mandu", "Omkareshwar", "Maheshwar"]),
  ("JLR", ["Jabalpur", "Kanha", "Bandhavgarh", "Bhedaghat", "Amarkantak"]),
  ("GWL", ["Gwalior", "Orchha", "Jhansi", "Shivpuri"]),
  ("HJR", ["Khajuraho", "Panna"]),
  ("RPR", ["Raipur", "Bastar", "Jagdalpur", "Chitrakoot Falls"]),
  ("IXZ", ["Port Blair", "Havelock Island", "Neil Island", "Baratang Island", "Ross Island"])]

/-- Embedding of the targets/display assignment in `get_flight_data`:
table hit yields the synonym list with its first element as display,
table miss yields the API city (default "Unknown City") as a
single-element list and display. -/
def resolveCity (destCode : String) (arrCity : Option String) :
    List String × String :=
  match cityVariants.lookup destCode with
  | some ts => (ts, ts.headD "")
  | none =>
    let c := arrCity.getD "Unknown City"
    ([c], c)

/-- C5 counterexample: resolving "BLR" does not return the two-element
candidate list claimed; the table maps BLR to ten candidate cities. -/
theorem resolveCity_BLR_counterexample :
    (resolveCity "BLR" none).1 ≠ ["Bengaluru", "Bangalore"] := by
  decide

/-- C5 (amended): resolving "BLR" returns the ten-candidate list whose
first two entries are Bengaluru and Bangalore, with display name
"Bengaluru", the first element of the candidate list. -/
theorem resolveCity_BLR :
    resolveCity "BLR" none =
      (["Bengaluru", "Bangalore", "Mysore", "Coorg", "Chikmagalur",
        "Nandi Hills", "Hassan", "Belur", "Halebidu", "Lepakshi"],
       "Bengaluru")
    ∧ (resolveCity "BLR" none).1.take 2 = ["Bengaluru", "Bangalore"]
    ∧ (resolveCity "BLR" none).2 = (resolveCity "BLR" none).1.headD "" := by
  refine ⟨by decide, by decide, by decide⟩

/-- C6: for every airport code absent from the synonym table, when the
flight API yields no city either, resolution returns the sentinel
"Unknown City" as both the single candidate and the display name; the
resolver is a total function, so no exception is possible. -/
theorem resolveCity_unresolved (code : String)
    (h : cityVariants.lookup code = none) :
    resolveCity code none = (["Unknown City"], "Unknown City") := by
  unfold resolveCity
  rw [h]
  rfl

/-- C6 witness: the code "ZZZ" is absent from the table and resolves to
the sentinel. -/
theorem resolveCity_unresolved_witness :
    resolveCity "ZZZ" none = (["Unknown City"], "Unknown City") :=
  resolveCity_unresolved "ZZZ" (by decide)

/- ### Knowledge retrieval (src/App.py lines 37-62 and 330-333)

`query_city` posts one runQuery payload per call: equality filter on
the "City" field over the itineraries_knowledge_base collection with
limit 10.  The Generate Itinerary handler runs
`for city in targets: rag_docs.extend(db_http.query_city(city.strip()))`.
The backend is abstracted as a function from the queried city string to
the per-city result rows (queries are external I/O). -/

/-- A parsed knowledge-base document: flat field-name/value mapping as
produced by `_parse_response`. -/
abbrev Doc := List (String × String)

structure FsQuery where
  collectionId : String
  fieldPath : String
  op : String
  value : String
  limit : Nat
deriving DecidableEq

/-- The structuredQuery payload built by `query_city`. -/
def queryCityPayload (cityName : String) : FsQuery :=
  { collectionId := "itineraries_knowledge_base"
    fieldPath := "City"
    op := "EQUAL"
    value := cityName
    limit := 10 }

/-- ASCII whitespace test used by the strip embedding. -/
def isWsChar (c : Char) : Bool :=
  c = ' ' ∨ c = '\t' ∨ c = '\n' ∨ c = '\r'

/-- Embedding of Python `str.strip()`: drop whitespace from both ends. -/
def pyStrip (s : String) : String :=
  String.mk (((s.data.dropWhile isWsChar).reverse.dropWhile isWsChar).reverse)

/-- Embedding of the rag_docs loop; the first component records the
queries issued, the second accumulates the rows in loop order. -/
def ragLoop (db : String → List Doc) : List String → List FsQuery × List Doc
  | [] => ([], [])
  | city :: rest =>
    let r := ragLoop db rest
    (queryCityPayload (pyStrip city) :: r.1, db (pyStrip city) ++ r.2)

/-- C7: for a candidate list of size N the loop issues exactly one
equality query with limit 10 per candidate (hence at most N queries)
and returns the concatenation of the per-city results in order; no
duplicate row is dropped, as witnessed by occurrence counts adding up. -/
theorem ragLoop_spec (db : String → List Doc) (targets : List String) :
    (ragLoop db targets).1
      = targets.map (fun c => queryCityPayload (pyStrip c))
    ∧ (ragLoop db targets).1.length = targets.length
    ∧ (∀ q ∈ (ragLoop db targets).1,
        q.limit = 10 ∧ q.op = "EQUAL"
        ∧ q.collectionId = "itineraries_knowledge_base")
    ∧ (ragLoop db targets).2
        = (targets.map (fun c => db (pyStrip c))).flatten
    ∧ (∀ d : Doc, ((ragLoop db targets).2).count d
        = (targets.map (fun c => ((db (pyStrip c)).count d))).sum) := by
  induction targets with
  | nil =>
    refine ⟨rfl, rfl, ?_, rfl, ?_⟩
    · intro q hq
      exact absurd hq (List.not_mem_nil q)
    · intro d
      rfl
  | cons c rest ih =>
    obtain ⟨ih1, ih2, ih3, ih4, ih5⟩ := ih
    refine ⟨?_, ?_, ?_, ?_, ?_⟩
    · simp only [ragLoop, List.map_cons, ih1]
    · simp only [ragLoop, List.length_cons, ih2]
    · intro q hq
      simp only [ragLoop, List.mem_cons] at hq
      rcases hq with hq | hq
      · subst hq
        exact ⟨rfl, rfl, rfl⟩
      · exact ih3 q hq
    · simp only [ragLoop, List.map_cons, ih4, List.flatten_cons]
    · intro d
      simp only [ragLoop, List.count_append, List.map_cons, List.sum_cons,
        ih5]

/-- Sample backend used to instantiate the retrieval theorem. -/
def dbSample : String → List Doc := fun c =>
  if c = "Bengaluru" then [[("Name", "Lalbagh")], [("Name", "Cubbon Park")]]
  else []

/-- C7 witness: two candidate cities issue two queries (with limit 10)
and the rows of both cities are accumulated in order. -/
theorem ragLoop_spec_witness :
    ((ragLoop dbSample ["Bengaluru", " Bangalore "]).1.length = 2
    ∧ (ragLoop dbSample ["Bengaluru", " Bangalore "]).2
        = [[("Name", "Lalbagh")], [("Name", "Cubbon Park")]])
    ∧ (queryCityPayload "Bengaluru").limit = 10 := by
  have h := ragLoop_spec dbSample ["Bengaluru", " Bangalore "]
  refine ⟨⟨h.2.1, ?_⟩, ?_⟩
  · rw [h.2.2.2.1]
    rfl
  · exact (h.2.2.1 (queryCityPayload "Bengaluru") (by decide)).1

/- ### Credential normalizer (src/App.py lines 17-35)

`FirestoreREST.__init__` behaviour on the FIREBASE_KEY secret:
a textual blob goes through `json.loads(raw_key, strict=False)` (the
single lenient parse, with no further fallback); a mapping blob is
copied with `dict(raw_key)`.  Then the private-key repair of line 26 is
applied.  On any exception the handler shows an auth error and stops.
The JSON deserializer is embedded for the fragment of JSON the
credential blob uses, flat objects with string keys and string values,
mirroring Python semantics: escape sequences are decoded, the `strict`
flag decides whether a raw control character (codepoint below 32)
inside a string literal is an error, trailing text or a trailing comma
is an error. -/

/-- JSON escape-sequence decoding for the short escapes. -/
def escChar : Char → Option Char
  | '"' => some '"'
  | '\\' => some '\\'
  | '/' => some '/'
  | 'b' => some (Char.ofNat 8)
  | 'f' => some (Char.ofNat 12)
  | 'n' => some '\n'
  | 'r' => some '\r'
  | 't' => some '\t'
  | _ => none

/-- Skip JSON whitespace. -/
def skipWs : List Char → List Char
  | c :: rest =>
    if c = ' ' ∨ c = '\t' ∨ c = '\n' ∨ c = '\r' then skipWs rest
    else c :: rest
  | [] => []

/-- Parse the rest of a string literal (the opening quote already
consumed): returns the decoded content and the input after the closing
quote.  In strict mode a raw control character is an error. -/
def parseStrContent (strict : Bool) : List Char → Option (List Char × List Char)
  | [] => none
  | '"' :: rest => some ([], rest)
  | '\\' :: e :: rest =>
    match escChar e with
    | some c => (parseStrContent strict rest).map (fun p => (c :: p.1, p.2))
    | none => none
  | c :: rest =>
    if strict ∧ c.toNat < 32 then none
    else (parseStrContent strict rest).map (fun p => (c :: p.1, p.2))

/-- Parse one `"key" : "value"` member. -/
def parsePair (strict : Bool) (s : List Char) :
    Option ((String × String) × List Char) :=
  match skipWs s with
  | '"' :: rest =>
    match parseStrContent strict rest with
    | some (k, rest2) =>
      match skipWs rest2 with
      | ':' :: rest3 =>
        match skipWs rest3 with
        | '"' :: rest4 =>
          match parseStrContent strict rest4 with
          | some (v, rest5) => some ((String.mk k, String.mk v), rest5)
          | none => none
        | _ => none
      | _ => none
    | none => none
  | _ => none

/-- Parse the members of an object up to and including the closing
brace; fuel bounds the recursion by the input length. -/
def parseMembersAux (strict : Bool) :
    Nat → List Char → Option (List (String × String) × List Char)
  | 0, _ => none
  | fuel + 1, s =>
    match parsePair strict s with
    | none => none
    | some (kv, rest) =>
      match skipWs rest with
      | ',' :: rest2 =>
        match parseMembersAux strict fuel rest2 with
        | some (m, rest3) => some (kv :: m, rest3)
        | none => none
      | '}' :: rest2 => some ([kv], rest2)
      | _ => none

/-- Embedding of `json.loads` on flat string-valued objects; `strict`
is the Python `strict` keyword. -/
def jsonLoads (strict : Bool) (s : List Char) :
    Option (List (String × String)) :=
  match skipWs s with
  | '{' :: rest =>
    match skipWs rest with
    | '}' :: rest2 => if skipWs rest2 = [] then some [] else none
    | _ =>
      match parseMembersAux strict (rest.length + 1) rest with
      | some (m, rest2) => if skipWs rest2 = [] then some m else none
      | none => none
  | _ => none

/-- The raw FIREBASE_KEY secret: textual blob or pre-parsed mapping. -/
inductive RawKey where
  | text : String → RawKey
  | dict : List (String × String) → RawKey

/-- Embedding of `FirestoreREST.__init__` through the deserialization
and key-repair stage (the downstream signing-credential construction
is an external library call).  A textual blob is parsed once, leniently
(`strict=False`); there is no other parsing path.  Any deserialization
failure lands in the `except` branch: auth error, `st.stop()`. -/
def firestoreInit (raw : RawKey) : Except String (List (String × String)) :=
  match raw with
  | RawKey.text s =>
    match jsonLoads false s.data with
    | some kd => Except.ok (repairKey kd)
    | none => Except.error "Auth Error"
  | RawKey.dict m => Except.ok (repairKey m)

/-- Modelled from the spec: the targeted text-scanning extraction that
locates the private-key field by delimiter pattern and extracts its
content verbatim.  This fallback is described in the specification but
is absent from src/App.py; it is defined here only to compare the
specified behaviour with the code. -/
def dropAfterPat (pat : List Char) : List Char → Option (List Char)
  | [] => none
  | c :: rest =>
    if pat.isPrefixOf (c :: rest) then some ((c :: rest).drop pat.length)
    else dropAfterPat pat rest

/-- Collect characters up to the next quote. -/
def takeUntilQuote : List Char → Option (List Char)
  | [] => none
  | '"' :: _ => some []
  | c :: rest => (takeUntilQuote rest).map (fun l => c :: l)

/-- Modelled from the spec: scan the raw blob for the private-key field
by its quoted name, skip the colon, and take the quoted content
verbatim. -/
def scanExtract (s : List Char) : Option String :=
  match dropAfterPat ("\"private_key\"").data s with
  | some r1 =>
    match skipWs r1 with
    | ':' :: r2 =>
      match skipWs r2 with
      | '"' :: r3 => (takeUntilQuote r3).map String.mk
      | _ => none
    | _ => none
  | none => none

/-- A textual blob whose strict deserialization fails (trailing comma)
while the private key is still locatable by delimiter scanning. -/
def blobBad : String := "\x7b\"private_key\": \"KEY\",\x7d"

/-- A textual blob containing a literal control character (codepoint 1)
inside the private-key value: strict deserialization fails, lenient
deserialization succeeds. -/
def blobCtrl : String := "\x7b\"private_key\": \"AB\x01CD\"\x7d"

/-- C4 counterexample: on `blobBad` strict deserialization fails and
the spec-modelled delimiter scan would extract the key verbatim, yet
the normalizer aborts with an auth error instead of falling back to
any extraction. -/
theorem firestoreInit_no_scan_counterexample :
    jsonLoads true blobBad.data = none
    ∧ scanExtract blobBad.data = some "KEY"
    ∧ firestoreInit (RawKey.text blobBad) = Except.error "Auth Error" :=
  ⟨rfl, rfl, rfl⟩

/-- C4 (amended): the normalizer tolerates literal control characters
not through a scanning fallback but by running the single
deserialization pass with strict validation disabled; on `blobCtrl`
strict parsing fails while the normalizer succeeds and returns the
repaired mapping, and when even lenient deserialization fails the
normalizer surfaces the auth error and halts. -/
theorem firestoreInit_lenient :
    jsonLoads true blobCtrl.data = none
    ∧ jsonLoads false blobCtrl.data = some [("private_key", "AB\x01CD")]
    ∧ firestoreInit (RawKey.text blobCtrl)
        = Except.ok [("private_key", "AB\x01CD")]
    ∧ firestoreInit (RawKey.text "not json") = Except.error "Auth Error" :=
  ⟨rfl, rfl, rfl, rfl⟩

/- ### Session state and button handlers (src/App.py lines 101-105,
278-302, 328-362)

The Streamlit session state carries flight_info, journey_meta,
itinerary_data and pickup_address.  The Calculate Journey handler, on a
found flight, stores the flight, the journey summary and resets
itinerary_data to None in one assignment block; on a missing flight it
only shows an error.  The Generate Itinerary handler calls
`model.generate_content` exactly once inside try/except; on success it
parses the response text as JSON and stores it, on any failure it only
shows an error. -/

structure FlightRec where
  dep_time : Int
  arr_time : Int
  dep_iata : Option String
  arr_iata : Option String
  origin_code : Option String
  dest_code : Option String
  targets : List String
  display : String
deriving DecidableEq

structure JourneyMeta where
  leave_time : String
  traffic_txt : String
  dep_iata : Option String
  arr_iata : Option String
  takeoff : String
  landing : String
deriving DecidableEq

structure ItinDay where
  day : Nat
  theme : String
  activities : List String
deriving DecidableEq

structure Itinerary where
  title : String
  days : List ItinDay
deriving DecidableEq

structure AppState where
  flight_info : Option FlightRec
  journey_meta : Option JourneyMeta
  itinerary_data : Option Itinerary
  pickup_address : String
deriving DecidableEq

/-- The journey_meta dict built on a successful journey calculation
(lines 292-299). -/
def mkJourneyMeta (f : FlightRec) (trafficSec : Nat) (trafficTxt : String) :
    JourneyMeta :=
  { leave_time := fmt12 (leaveBy f.dep_time trafficSec)
    traffic_txt := trafficTxt
    dep_iata := f.dep_iata
    arr_iata := f.arr_iata
    takeoff := fmt12 f.dep_time
    landing := fmt12 f.arr_time }

/-- Embedding of the Calculate Journey handler state update: a found
flight stores flight_info, journey_meta and clears itinerary_data in
the same step; a missing flight leaves the state untouched (only an
error message is shown). -/
def calcJourneyHandler (s : AppState) (flight : Option FlightRec)
    (trafficSec : Nat) (trafficTxt : String) : AppState :=
  match flight with
  | some f =>
    { s with
      flight_info := some f
      journey_meta := some (mkJourneyMeta f trafficSec trafficTxt)
      itinerary_data := none }
  | none => s

/-- Outcome of one `model.generate_content` call. -/
inductive GenOutcome where
  | ok : String → GenOutcome
  | quotaErr : String → GenOutcome
  | otherErr : String → GenOutcome
deriving DecidableEq

/-- Embedding of the Generate Itinerary handler.  `gen k` is the
outcome the external model would return for the k-th call and `parse`
stands for `json.loads` on the itinerary payload.  The code performs a
single call inside try/except, so the run consumes outcome 0 only.
Result: the new state, the number of generate calls made, and whether
a generation error was displayed. -/
def generateHandlerRun (gen : Nat → GenOutcome)
    (parse : String → Option Itinerary) (s : AppState) :
    AppState × Nat × Bool :=
  match gen 0 with
  | GenOutcome.ok text =>
    match parse text with
    | some d => ({ s with itinerary_data := some d }, 1, false)
    | none => (s, 1, true)
  | GenOutcome.quotaErr _ => (s, 1, true)
  | GenOutcome.otherErr _ => (s, 1, true)

/-- C8 (amended): on a quota/rate-limit failure the handler performs no
retry at all: exactly one generate call is made, the failure is
surfaced immediately as an error message, and the state is unchanged. -/
theorem generate_no_retry (gen : Nat → GenOutcome)
    (parse : String → Option Itinerary) (s : AppState) (msg : String)
    (h : gen 0 = GenOutcome.quotaErr msg) :
    generateHandlerRun gen parse s = (s, 1, true) := by
  unfold generateHandlerRun
  rw [h]

/-- Generate-call outcome stream whose first call hits a quota error
and whose second call would succeed. -/
def genQuotaThenOk : Nat → GenOutcome := fun k =>
  if k = 0 then GenOutcome.quotaErr "429 rate limit" else GenOutcome.ok "\x7b\x7d"

/-- Response parser stub that accepts any payload. -/
def parseConst : String → Option Itinerary :=
  fun _ => some { title := "T", days := [] }

def emptyState : AppState :=
  { flight_info := none
    journey_meta := none
    itinerary_data := none
    pickup_address := "" }

/-- C8 witness: the no-retry behaviour at the concrete quota-failing
stream. -/
theorem generate_no_retry_witness :
    generateHandlerRun genQuotaThenOk parseConst emptyState
      = (emptyState, 1, true) :=
  generate_no_retry genQuotaThenOk parseConst emptyState "429 rate limit" rfl

/-- C8 counterexample: after the quota failure of the first call the
handler stops at one call and surfaces the failure, even though the
next call would have succeeded and its payload would have parsed, so no
bounded-backoff retry is performed before surfacing the failure. -/
theorem generate_no_retry_counterexample :
    (generateHandlerRun genQuotaThenOk parseConst emptyState).2.1 = 1
    ∧ (generateHandlerRun genQuotaThenOk parseConst emptyState).2.2 = true
    ∧ (generateHandlerRun genQuotaThenOk parseConst emptyState).1.itinerary_data
        = none
    ∧ genQuotaThenOk 1 = GenOutcome.ok "\x7b\x7d"
    ∧ parseConst "\x7b\x7d" = some { title := "T", days := [] } :=
  ⟨rfl, rfl, rfl, rfl, rfl⟩

/-- C9: the Generate Itinerary handler never touches journey_meta or
flight_info, and on any failure (error displayed) the whole state is
exactly the previous state, so a previously computed journey summary
stays stored and visible. -/
theorem generate_failure_preserves_journey (gen : Nat → GenOutcome)
    (parse : String → Option Itinerary) (s : AppState) :
    ((generateHandlerRun gen parse s).1.journey_meta = s.journey_meta
    ∧ (generateHandlerRun gen parse s).1.flight_info = s.flight_info)
    ∧ ((generateHandlerRun gen parse s).2.2 = true
        → (generateHandlerRun gen parse s).1 = s) := by
  cases hg : gen 0 with
  | ok text =>
    cases hp : parse text with
    | some d => simp [generateHandlerRun, hg, hp]
    | none => simp [generateHandlerRun, hg, hp]
  | quotaErr m => simp [generateHandlerRun, hg]
  | otherErr m => simp [generateHandlerRun, hg]

/-- C9 witness: concrete failing run leaving the state untouched. -/
theorem generate_failure_preserves_journey_witness :
    (generateHandlerRun genQuotaThenOk parseConst emptyState).1 = emptyState :=
  (generate_failure_preserves_journey genQuotaThenOk parseConst
    emptyState).2 rfl

/-- C10: whenever the journey calculation succeeds (the flight is
found), the same state update that stores the new flight and journey
summary resets the stored itinerary to None, regardless of what
itinerary a previous calculation had left. -/
theorem calc_journey_resets_itinerary (s : AppState) (f : FlightRec)
    (trafficSec : Nat) (trafficTxt : String) :
    (calcJourneyHandler s (some f) trafficSec trafficTxt).itinerary_data = none
    ∧ (calcJourneyHandler s (some f) trafficSec trafficTxt).flight_info
        = some f
    ∧ (calcJourneyHandler s (some f) trafficSec trafficTxt).journey_meta
        = some (mkJourneyMeta f trafficSec trafficTxt)
    ∧ (calcJourneyHandler s (some f) trafficSec trafficTxt).pickup_address
        = s.pickup_address :=
  ⟨rfl, rfl, rfl, rfl⟩
